import Mathlib

/-!
Shallow embedding of the `jog` task runner (oogles/jog) in Lean 4, covering
the task-classification, execution, argument-propagation, config-location and
styling logic of:

  * `jogger/tasks/base.py`  (`Task`, `TaskProxy`)
  * `jogger/main.py`        (the CLI entry point's own `TaskProxy`)
  * `jogger/utils/files.py` (`find_file`)
  * `jogger/output.py`      (`style`, `Styler`)

Python runtime values that matter to the classification logic are modelled by
closed inductive types; machine effects (writing to a stream, `sys.exit`)
become explicit result values.
-/

namespace Jog

/-! ## Task names (`TASK_NAME_RE = re.compile(r'^\w+$')`, base.py line 12)

Python `\w` with the default Unicode flag also matches non-ASCII word
characters; the embedding restricts attention to ASCII names, which is the
character class the spec's `^\w+$` examples use. -/

/-- An ASCII word character: alphanumeric or underscore (`\w`). -/
def isWordChar (c : Char) : Bool :=
  c.isAlphanum || c = '_'

/-- `TASK_NAME_RE.match(name)` is truthy iff the whole string is one or more
word characters (the pattern is anchored by `^` and `$`). -/
def validTaskName (s : String) : Bool :=
  s.data ≠ [] && s.data.all isWordChar

/-- A Python value used as a task-mapping key: either a string or some
non-string object (for which `TASK_NAME_RE.match` raises `TypeError`,
caught at base.py lines 228-231 and treated as an invalid name). -/
inductive PyName where
  | str (s : String)
  | notStr
deriving DecidableEq, Repr

/-- The name check of `TaskProxy.__init__`: a non-string raises `TypeError`
inside the `try`, making `valid_name` falsy; a string is matched against
`TASK_NAME_RE`. -/
def validName : PyName → Bool
  | .str s => validTaskName s
  | .notStr => false

/-! ## Task definitions and classification (`TaskProxy.__init__`, base.py 226-261) -/

/-- A Python value appearing as a task definition in the `jog.py` mapping.
The constructors mirror the branches of the `isinstance`/`issubclass`/
`callable` cascade:

  * `str s` — a string (shell variant);
  * `taskClass h` — a class derived from `Task`, whose class attribute
    `help` holds `h`;
  * `callableVal doc` — any other callable (function, or a class not derived
    from `Task`), with `doc` its `__doc__` attribute (`none` = no docstring);
  * `intVal` / `noneVal` — non-callable, non-string values such as an
    integer or `None`, which fall through to the final `else`. -/
inductive TaskDef where
  | str (s : String)
  | taskClass (help : String)
  | callableVal (doc : Option String)
  | intVal (n : Int)
  | noneVal
deriving DecidableEq, Repr

/-- `exec_mode` attribute values. -/
inductive ExecMode where
  | cli
  | python
deriving DecidableEq, Repr

/-- Which executor method `TaskProxy.__init__` binds. -/
inductive ExecutorKind where
  | executeString
  | executeClass
  | executeCallable
deriving DecidableEq, Repr

/-- The two exception classes of `jogger/exceptions.py` (the module itself is
not in the source tree; each carries its message). -/
inductive JogError where
  | taskDefinitionError (msg : String)
  | taskError (msg : String)
deriving DecidableEq, Repr

/-- The attributes `TaskProxy.__init__` (base.py) sets on a successfully
constructed proxy. -/
structure TaskProxy where
  prog : String
  name : String
  exec_mode : ExecMode
  executor : ExecutorKind
  help_text : String
  has_own_args : Bool
  argv : Option (List String)
deriving DecidableEq, Repr

/-- The message of the invalid-name `TaskDefinitionError` (base.py 234-237).
For a non-string name the f-string renders the object's `repr`, modelled
here by a fixed placeholder. -/
def invalidNameMsg : PyName → String
  | .str s =>
      "Task name \"" ++ s ++ "\" is not valid - must be a string " ++
      "containing alphanumeric characters and the underscore only."
  | .notStr =>
      "Task name \"<non-string>\" is not valid - must be a string " ++
      "containing alphanumeric characters and the underscore only."

/-- `cleandoc(task.__doc__) if task.__doc__ else ''` (base.py 252):
`task.__doc__` is falsy when it is `None` or the empty string. `cleandoc`
is Python standard-library behaviour, passed in as a parameter `cd`. -/
def helpOfDoc (cd : String → String) : Option String → String
  | none => ""
  | some d => if d = "" then "" else cd d

/-- `TaskProxy.__init__` (base.py 226-261): validate the name, classify the
definition into exactly one variant, and populate the proxy's attributes.
`cd` stands for `inspect.cleandoc`. -/
def taskProxyInit (cd : String → String) (prog : String) (name : PyName)
    (task : TaskDef) (argv : Option (List String)) : Except JogError TaskProxy :=
  if !validName name then
    .error (.taskDefinitionError (invalidNameMsg name))
  else
    let nameStr := match name with
      | .str s => s
      | .notStr => ""
    let mk (m : ExecMode) (ex : ExecutorKind) (help : String) (own : Bool) :
        TaskProxy :=
      { prog := prog ++ " " ++ nameStr
        name := nameStr
        exec_mode := m
        executor := ex
        help_text := help
        has_own_args := own
        argv := argv }
    match task with
    | .str s => .ok (mk .cli .executeString s false)
    | .taskClass h => .ok (mk .python .executeClass h true)
    | .callableVal doc => .ok (mk .python .executeCallable (helpOfDoc cd doc) false)
    | .intVal _ =>
        .error (.taskDefinitionError ("Unrecognised task format for \"" ++ nameStr ++ "\"."))
    | .noneVal =>
        .error (.taskDefinitionError ("Unrecognised task format for \"" ++ nameStr ++ "\"."))

/-! ## Execution and error containment (base.py `Task.execute`, `TaskProxy.execute`;
main.py `TaskProxy.execute`) -/

/-- A raised `TaskError` instance (or a subclass): its class name
(`e.__class__.__name__`) and its message (`str(e)`). -/
structure PyTaskError where
  className : String
  msg : String
deriving DecidableEq, Repr

/-- What the guarded call (`handle(...)` in `Task.execute`, `self.executor()`
in `TaskProxy.execute`) did: returned normally, raised a `TaskError`, or
raised some other exception (carried as an opaque description). -/
inductive HandleOutcome where
  | ok
  | taskError (e : PyTaskError)
  | otherError (e : String)
deriving DecidableEq, Repr

/-- The observable result of an `execute()` call: normal return, a
`sys.exit(code)` after writing `written` to the error stream, or an
exception propagating out unhandled. -/
inductive ExecResult where
  | normal
  | exitWith (code : Nat) (written : String)
  | propagated (e : String)
deriving DecidableEq, Repr

/-- `Task.execute` (base.py 190-200): run `handle`, catch only `TaskError`,
write `str(e)` to `self.stderr` and `sys.exit(1)`; let anything else
propagate. -/
def taskExecute : HandleOutcome → ExecResult
  | .ok => .normal
  | .taskError e => .exitWith 1 e.msg
  | .otherError e => .propagated e

/-- `TaskProxy.execute` (base.py 292-301): run the bound executor, catch
`TaskError`, write `str(e)` to `self.stderr` and `sys.exit(1)`. -/
def proxyExecute : HandleOutcome → ExecResult
  | .ok => .normal
  | .taskError e => .exitWith 1 e.msg
  | .otherError e => .propagated e

/-- `TaskProxy.execute` (main.py 90-99): run the bound executor, re-raise
anything that is not a `TaskError`, and for a `TaskError` write
`f'{e.__class__.__name__}: {e}'` to `stderr` and `sys.exit(1)`. -/
def mainProxyExecute : HandleOutcome → ExecResult
  | .ok => .normal
  | .taskError e => .exitWith 1 (e.className ++ ": " ++ e.msg)
  | .otherError e => .propagated e

/-! ## The shell runner `Task.cli` (base.py 98-119) -/

/-- The `subprocess.CompletedProcess` returned by
`subprocess.run(cmd, shell=True, stdout=PIPE, stderr=PIPE)`: the exit code
and the two captured byte streams. The bytes are modelled as the strings
they decode to (`.decode('utf-8')` in the source). -/
structure CliResult where
  returncode : Int
  stdout : String
  stderr : String
deriving DecidableEq, Repr

/-- Modelled from the spec: the Output Channel (`jogger/utils/output.py`,
imported by base.py as `OutputWrapper` but not present in the source tree)
"wraps an underlying writable stream, applies an optional named style per
write call". Only the content appended to the underlying stream is
modelled: each `write(msg, ...)` appends `msg` (the optional ending and
styling decorate but do not replace the message). -/
structure OutputWrapper where
  written : List String
deriving DecidableEq, Repr

/-- Modelled from the spec: `OutputWrapper.write` appends the message to the
wrapped stream. -/
def OutputWrapper.write (w : OutputWrapper) (msg : String) : OutputWrapper :=
  ⟨w.written ++ [msg]⟩

/-- `Task.cli` (base.py 98-119): run the command (its completed-process
result is the parameter `result`, since the subprocess itself is outside
the program), write the decoded stdout to `self.stdout` unless
`no_output`, always write the decoded stderr to `self.stderr`, and return
the result object. The source contains no `raise` and `subprocess.run` is
called without `check=True`, so the runner returns `.ok` on every input;
the `Except` wrapper records that no exception path exists. -/
def taskCli (result : CliResult) (no_output : Bool)
    (stdout stderr : OutputWrapper) :
    Except String (OutputWrapper × OutputWrapper × CliResult) :=
  let stdout := if !no_output then stdout.write result.stdout else stdout
  let stderr := stderr.write result.stderr
  .ok (stdout, stderr, result)

/-! ## Sub-task argument propagation (`Task._get_task_proxy_args`, base.py 121-145) -/

/-- The parsed common options of the invoking task that
`_get_task_proxy_args` reads from `self.kwargs`: `verbosity` (an `int`),
the `name` attributes of the resolved `stdout`/`stderr` file objects
(`'<stdout>'`/`'<stderr>'` for the process streams), and `no_color`. -/
structure ParentKwargs where
  verbosity : Int
  stdout_name : String
  stderr_name : String
  no_color : Bool
deriving DecidableEq, Repr

/-- Base.py 125-126: append `('--verbosity', str(verbosity))` unless `-v` or
`--verbosity` already appears in the explicit arguments. -/
def addVerbosity (kw : ParentKwargs) (args : List String) : List String :=
  if "-v" ∉ args ∧ "--verbosity" ∉ args then
    args ++ ["--verbosity", toString kw.verbosity]
  else
    args

/-- Base.py 128-133: append `('--stdout', name)` unless `--stdout` already
appears, and only when the stream is not the process's own stdout. -/
def addStdout (kw : ParentKwargs) (args : List String) : List String :=
  if "--stdout" ∉ args then
    if kw.stdout_name ≠ "<stdout>" then args ++ ["--stdout", kw.stdout_name]
    else args
  else
    args

/-- Base.py 135-140: append `('--stderr', name)` unless `--stderr` already
appears, and only when the stream is not the process's own stderr. -/
def addStderr (kw : ParentKwargs) (args : List String) : List String :=
  if "--stderr" ∉ args then
    if kw.stderr_name ≠ "<stderr>" then args ++ ["--stderr", kw.stderr_name]
    else args
  else
    args

/-- Base.py 142-143: append `--no-color` when absent from the explicit
arguments and the invoking task was itself run with `no_color`. -/
def addNoColor (kw : ParentKwargs) (args : List String) : List String :=
  if "--no-color" ∉ args ∧ kw.no_color then args ++ ["--no-color"] else args

/-- `Task._get_task_proxy_args` (base.py 121-145): start from the explicit
argument list and extend it with each common flag in turn. -/
def getTaskProxyArgs (kw : ParentKwargs) (args : List String) : List String :=
  addNoColor kw (addStderr kw (addStdout kw (addVerbosity kw args)))

/-! ## Sub-task invocation (`Task.get_task_proxy`, base.py 147-188) -/

/-- The outcome of the `get_tasks()` call inside `get_task_proxy`: either it
raised `FileNotFoundError` (no `jog.py` within the search bound) or it
returned the task mapping, modelled as an association list. -/
inductive GetTasksOutcome where
  | fileNotFound (msg : String)
  | tasksMap (m : List (String × TaskDef))
deriving Repr

/-- `Task.get_task_proxy` (base.py 147-188): re-resolve the name against the
loaded mapping (`FileNotFoundError` and `KeyError` both become
`TaskDefinitionError`), build a proxy (which may itself raise
`TaskDefinitionError`), then either attach the propagated argument vector
(structured target) or reject non-empty extra arguments with `TaskError`.
`cd` stands for `inspect.cleandoc` and `kw` for the invoking task's parsed
common options. -/
def getTaskProxy (cd : String → String) (kw : ParentKwargs)
    (gt : GetTasksOutcome) (task_name : String) (args : List String) :
    Except JogError TaskProxy :=
  match gt with
  | .fileNotFound msg => .error (.taskDefinitionError msg)
  | .tasksMap m =>
    match m.lookup task_name with
    | none => .error (.taskDefinitionError ("Unknown task \"" ++ task_name ++ "\"."))
    | some task =>
      match taskProxyInit cd "proxy.execute" (.str task_name) task none with
      | .error e => .error e
      | .ok proxy =>
        if proxy.has_own_args then
          .ok { proxy with argv := some (getTaskProxyArgs kw args) }
        else if args ≠ [] then
          .error (.taskError "String- and function-based tasks do not accept arguments.")
        else
          .ok proxy

/-! ## The config locator (`find_file`, jogger/utils/files.py 4-38)

A directory is a list of path components below the filesystem root; the
root itself is `[]`. `os.path.dirname` drops the last component and is the
identity on the root, matching `dirname('/') == '/'`. The predicate
`fs dir` stands for `os.path.exists(os.path.join(dir, target_file_name))`
with the target filename fixed. Paths produced by `os.getcwd()` are
non-empty strings, so the loop's `while path` truthiness test is always
satisfied and is not modelled separately. -/

/-- `os.path.dirname` on a directory path: drop the last component; the root
is its own parent. -/
def dirname (p : List String) : List String :=
  p.dropLast

/-- The `while` loop of `find_file`: at each iteration, require
`depth < max_search_depth` (modelled as remaining fuel), test for the
target in the current directory, and otherwise step to the parent,
stopping when the parent equals the current directory. Returns the
directory containing the match. -/
def findFileAux (fs : List String → Bool) : Nat → List String → Option (List String)
  | 0, _ => none
  | fuel + 1, p =>
    if fs p then some p
    else if dirname p = p then none
    else findFileAux fs fuel (dirname p)

/-- `find_file(target_file_name, from_path, max_search_depth=16)`: run the
search loop and raise `FileNotFoundError` when nothing matched. -/
def find_file (fs : List String → Bool) (from_path : List String)
    (max_search_depth : Nat := 16) : Except String (List String) :=
  match findFileAux fs max_search_depth from_path with
  | some dir => .ok dir
  | none => .error "Could not find the target file."

/-! ## ANSI styling (`jogger/output.py` 10-101) -/

/-- The eight ANSI color names (`COLOR_NAMES`, output.py line 10). -/
inductive Color where
  | black | red | green | yellow | blue | magenta | cyan | white
deriving DecidableEq, Repr

/-- `FOREGROUND` (output.py line 11): color name to foreground code `3x`. -/
def foregroundCode : Color → String
  | .black => "30" | .red => "31" | .green => "32" | .yellow => "33"
  | .blue => "34" | .magenta => "35" | .cyan => "36" | .white => "37"

/-- `BACKGROUND` (output.py line 12): color name to background code `4x`. -/
def backgroundCode : Color → String
  | .black => "40" | .red => "41" | .green => "42" | .yellow => "43"
  | .blue => "44" | .magenta => "45" | .cyan => "46" | .white => "47"

/-- The display options (`OPTIONS`, output.py line 14). -/
inductive StyleOption where
  | bold | underscore | blink | reverse | conceal
deriving DecidableEq, Repr

/-- `OPTIONS` (output.py line 14): option name to code. -/
def optionCode : StyleOption → String
  | .bold => "1" | .underscore => "4" | .blink => "5"
  | .reverse => "7" | .conceal => "8"

/-- `RESET` (output.py line 15). -/
def RESET : String := "\x1b[0m"

/-- `style(text, fg, bg, options, reset)` (output.py 18-56): append the RESET
code when `reset`, collect the codes of `fg`, `bg` and each option, and
enclose the text in the combined escape sequence. -/
def style (text : String) (fg bg : Option Color := none)
    (options : List StyleOption := []) (reset : Bool := true) : String :=
  let text := if reset then text ++ RESET else text
  let code_list := (fg.map foregroundCode).toList ++ (bg.map backgroundCode).toList
    ++ options.map optionCode
  "\x1b[" ++ String.intercalate ";" code_list ++ "m" ++ text

/-- `Styler` (output.py 73-101): construction stores `no_color`; each palette
role becomes the identity when `no_color`, and otherwise a `make_style`
closure over the role's palette entry. The embedding branches on the
stored flag at call time, which is the same function. -/
structure Styler where
  no_color : Bool
deriving DecidableEq, Repr

/-- `Styler.apply` (output.py 96-101): identity when `no_color`, otherwise
delegate to `style` with the caller's parameters. -/
def Styler.apply (s : Styler) (text : String) (fg bg : Option Color := none)
    (options : List StyleOption := []) (reset : Bool := true) : String :=
  if s.no_color then text else style text fg bg options reset

/-- Palette role `success`: `{'fg': 'green', 'options': ('bold',)}`. -/
def Styler.success (s : Styler) (text : String) : String :=
  if s.no_color then text else style text (some .green) none [.bold] true

/-- Palette role `error`: `{'fg': 'red', 'options': ('bold',)}`. -/
def Styler.error (s : Styler) (text : String) : String :=
  if s.no_color then text else style text (some .red) none [.bold] true

/-- Palette role `warning`: `{'fg': 'yellow', 'options': ('bold',)}`. -/
def Styler.warning (s : Styler) (text : String) : String :=
  if s.no_color then text else style text (some .yellow) none [.bold] true

/-- Palette role `info`: `{'options': ('bold',)}`. -/
def Styler.info (s : Styler) (text : String) : String :=
  if s.no_color then text else style text none none [.bold] true

/-- Palette role `debug`: `{'fg': 'magenta', 'options': ('bold',)}`. -/
def Styler.debug (s : Styler) (text : String) : String :=
  if s.no_color then text else style text (some .magenta) none [.bold] true

/-- Palette role `heading`: `{'fg': 'cyan', 'options': ('bold',)}`. -/
def Styler.heading (s : Styler) (text : String) : String :=
  if s.no_color then text else style text (some .cyan) none [.bold] true

/-- Palette role `label`: `{'options': ('bold',)}`. -/
def Styler.label (s : Styler) (text : String) : String :=
  if s.no_color then text else style text none none [.bold] true

end Jog

namespace Jog

/-- C1: for every valid task name, `TaskProxy.__init__` classifies the
definition into exactly one variant: a string yields the shell variant with
`help_text` the string itself and no own args; a `Task` subclass yields the
native variant with own args and `help_text` the class's `help` attribute;
any other callable yields the native variant without own args and
`help_text` its cleaned docstring (empty when the docstring is absent or
empty); an integer or `None` raises `TaskDefinitionError` during
construction, before any execution. -/
theorem C1_classification (cd : String → String) (prog s : String)
    (argv : Option (List String)) (h : validTaskName s = true) :
    (∀ t, taskProxyInit cd prog (.str s) (.str t) argv =
      .ok ⟨prog ++ " " ++ s, s, .cli, .executeString, t, false, argv⟩)
    ∧ (∀ hc, taskProxyInit cd prog (.str s) (.taskClass hc) argv =
      .ok ⟨prog ++ " " ++ s, s, .python, .executeClass, hc, true, argv⟩)
    ∧ (∀ d, d ≠ "" → taskProxyInit cd prog (.str s) (.callableVal (some d)) argv =
      .ok ⟨prog ++ " " ++ s, s, .python, .executeCallable, cd d, false, argv⟩)
    ∧ (∀ d, (d = none ∨ d = some "") →
        taskProxyInit cd prog (.str s) (.callableVal d) argv =
      .ok ⟨prog ++ " " ++ s, s, .python, .executeCallable, "", false, argv⟩)
    ∧ (∀ n, taskProxyInit cd prog (.str s) (.intVal n) argv =
      .error (.taskDefinitionError ("Unrecognised task format for \"" ++ s ++ "\".")))
    ∧ (taskProxyInit cd prog (.str s) .noneVal argv =
      .error (.taskDefinitionError ("Unrecognised task format for \"" ++ s ++ "\"."))) := by
  refine ⟨fun t => ?_, fun hc => ?_, fun d hd => ?_, fun d hd => ?_, fun n => ?_, ?_⟩
  all_goals simp [taskProxyInit, validName, h, helpOfDoc]
  · exact fun hd' => absurd hd' hd
  · rcases hd with hd | hd <;> simp [hd, helpOfDoc]

/-- C1 witness: the classification theorem applied at the concrete name
`build` and a string definition. -/
theorem C1_classification_witness :
    taskProxyInit id "jog" (.str "build") (.str "make all") none =
      .ok ⟨"jog build", "build", .cli, .executeString, "make all", false, none⟩ :=
  (C1_classification id "jog" "build" none (by decide)).1 "make all"

/-- C2: for every task name failing the `^\w+$` check — the empty string,
strings with characters outside `\w`, and non-string values — construction
raises `TaskDefinitionError` naming the offending value, regardless of the
definition's shape. -/
theorem C2_invalid_name (cd : String → String) (prog : String) (name : PyName)
    (task : TaskDef) (argv : Option (List String)) (h : validName name = false) :
    taskProxyInit cd prog name task argv =
      .error (.taskDefinitionError (invalidNameMsg name)) := by
  simp [taskProxyInit, h]

/-- C2 witness: the invalid-name theorem applied at the dashed name `a-b`
and a class definition. -/
theorem C2_invalid_name_witness :
    taskProxyInit id "jog" (.str "a-b") (.taskClass "h") none =
      .error (.taskDefinitionError (invalidNameMsg (.str "a-b"))) :=
  C2_invalid_name id "jog" (.str "a-b") (.taskClass "h") none (by decide)

/-- C3: when a structured task's `handle()` raises `TaskError` with message
`m`, `Task.execute` writes exactly `m` — no class-name prefix — to the
error channel and exits with code 1; any other exception propagates
unhandled. -/
theorem C3_task_execute :
    (∀ e : PyTaskError, taskExecute (.taskError e) = .exitWith 1 e.msg)
    ∧ (∀ x, taskExecute (.otherError x) = .propagated x)
    ∧ taskExecute .ok = .normal :=
  ⟨fun _ => rfl, fun _ => rfl, rfl⟩

/-- C4 counterexample: the in-task proxy (`TaskProxy.execute` in
`jogger/tasks/base.py`) catches a `TaskError` with message `boom` and
writes the bare `boom`, not the claimed `TaskError: boom`. -/
theorem C4_counterexample :
    proxyExecute (.taskError ⟨"TaskError", "boom"⟩) = .exitWith 1 "boom"
    ∧ "boom" ≠ "TaskError: boom" :=
  ⟨rfl, by decide⟩

/-- C4 amended: a `TaskError` raised during the CLI entry point proxy's
`execute()` (`jogger/main.py`) is caught, written to the error stream as
`<ErrorKind>: <message>`, and exits with code 1; the in-task proxy
(`jogger/tasks/base.py`) also catches it and exits with code 1 but writes
only the bare message; in both, any other exception propagates. -/
theorem C4_error_containment :
    (∀ e : PyTaskError,
      mainProxyExecute (.taskError e) = .exitWith 1 (e.className ++ ": " ++ e.msg))
    ∧ (∀ e : PyTaskError, proxyExecute (.taskError e) = .exitWith 1 e.msg)
    ∧ (∀ x, mainProxyExecute (.otherError x) = .propagated x)
    ∧ (∀ x, proxyExecute (.otherError x) = .propagated x) :=
  ⟨fun _ => rfl, fun _ => rfl, fun _ => rfl, fun _ => rfl⟩

/-- C8: for every completed command, `Task.cli` always writes the decoded
stderr bytes to the task's error channel, writes the decoded stdout bytes
to the task's output channel unless `no_output`, returns the result object
unchanged (carrying the exit code and both captured streams), and has no
exception path at all, whatever the exit status. -/
theorem C8_cli_runner (result : CliResult) (no_output : Bool)
    (stdout stderr : OutputWrapper) :
    taskCli result no_output stdout stderr =
      .ok (if no_output then stdout else stdout.write result.stdout,
           stderr.write result.stderr, result)
    ∧ ∃ v, taskCli result no_output stdout stderr = .ok v := by
  cases no_output <;> exact ⟨rfl, _, rfl⟩

/-- Membership in the explicit argument list is preserved by each
propagation step: every step only appends. -/
theorem mem_addVerbosity {a : String} (kw : ParentKwargs) {args : List String}
    (h : a ∈ args) : a ∈ addVerbosity kw args := by
  unfold addVerbosity
  split <;> simp [h]

/-- Membership is preserved by the `--stdout` propagation step. -/
theorem mem_addStdout {a : String} (kw : ParentKwargs) {args : List String}
    (h : a ∈ args) : a ∈ addStdout kw args := by
  unfold addStdout
  split <;> [skip; exact h]
  split <;> simp [h]

/-- Membership is preserved by the `--stderr` propagation step. -/
theorem mem_addStderr {a : String} (kw : ParentKwargs) {args : List String}
    (h : a ∈ args) : a ∈ addStderr kw args := by
  unfold addStderr
  split <;> [skip; exact h]
  split <;> simp [h]

/-- The verbosity step is skipped when the explicit arguments already carry
`-v` or `--verbosity`. -/
theorem addVerbosity_skip {kw : ParentKwargs} {args : List String}
    (h : "-v" ∈ args ∨ "--verbosity" ∈ args) : addVerbosity kw args = args := by
  unfold addVerbosity
  rcases h with h | h <;> simp [h]

/-- The `--stdout` step is skipped when the flag is already present. -/
theorem addStdout_skip {kw : ParentKwargs} {args : List String}
    (h : "--stdout" ∈ args) : addStdout kw args = args := by
  simp [addStdout, h]

/-- The `--stderr` step is skipped when the flag is already present. -/
theorem addStderr_skip {kw : ParentKwargs} {args : List String}
    (h : "--stderr" ∈ args) : addStderr kw args = args := by
  simp [addStderr, h]

/-- The `--no-color` step is skipped when the flag is already present. -/
theorem addNoColor_skip {kw : ParentKwargs} {args : List String}
    (h : "--no-color" ∈ args) : addNoColor kw args = args := by
  simp [addNoColor, h]

/-- C9: each common flag is propagated only when not already present in the
explicit arguments: with `-v` or `--verbosity` present, the verbosity step
contributes nothing to the synthesized vector; likewise for `--stdout`,
`--stderr` and `--no-color`; and `--no-color` is appended exactly when it
is absent and the parent itself was run with `no_color`. -/
theorem C9_no_duplicate_flags (kw : ParentKwargs) (args : List String) :
    (("-v" ∈ args ∨ "--verbosity" ∈ args) →
      getTaskProxyArgs kw args = addNoColor kw (addStderr kw (addStdout kw args)))
    ∧ ("--stdout" ∈ args →
      getTaskProxyArgs kw args = addNoColor kw (addStderr kw (addVerbosity kw args)))
    ∧ ("--stderr" ∈ args →
      getTaskProxyArgs kw args = addNoColor kw (addStdout kw (addVerbosity kw args)))
    ∧ ("--no-color" ∈ args →
      getTaskProxyArgs kw args = addStderr kw (addStdout kw (addVerbosity kw args)))
    ∧ (addNoColor kw args =
      if "--no-color" ∉ args ∧ kw.no_color then args ++ ["--no-color"] else args) := by
  refine ⟨fun h => ?_, fun h => ?_, fun h => ?_, fun h => ?_, rfl⟩
  · rw [getTaskProxyArgs, addVerbosity_skip h]
  · rw [getTaskProxyArgs, addStdout_skip (mem_addVerbosity kw h)]
  · rw [getTaskProxyArgs, addStderr_skip (mem_addStdout kw (mem_addVerbosity kw h))]
  · rw [getTaskProxyArgs,
      addNoColor_skip (mem_addStderr kw (mem_addStdout kw (mem_addVerbosity kw h)))]

/-- C9 witness: the no-duplicate-propagation theorem applied at concrete
argument lists carrying each flag. -/
theorem C9_no_duplicate_flags_witness :
    (getTaskProxyArgs ⟨1, "f", "g", true⟩ ["-v", "0"] =
      addNoColor ⟨1, "f", "g", true⟩ (addStderr ⟨1, "f", "g", true⟩
        (addStdout ⟨1, "f", "g", true⟩ ["-v", "0"])))
    ∧ (getTaskProxyArgs ⟨1, "f", "g", true⟩ ["--stdout", "x"] =
      addNoColor ⟨1, "f", "g", true⟩ (addStderr ⟨1, "f", "g", true⟩
        (addVerbosity ⟨1, "f", "g", true⟩ ["--stdout", "x"])))
    ∧ (getTaskProxyArgs ⟨1, "f", "g", true⟩ ["--stderr", "x"] =
      addNoColor ⟨1, "f", "g", true⟩ (addStdout ⟨1, "f", "g", true⟩
        (addVerbosity ⟨1, "f", "g", true⟩ ["--stderr", "x"])))
    ∧ (getTaskProxyArgs ⟨1, "f", "g", true⟩ ["--no-color"] =
      addStderr ⟨1, "f", "g", true⟩ (addStdout ⟨1, "f", "g", true⟩
        (addVerbosity ⟨1, "f", "g", true⟩ ["--no-color"])))
    ∧ (addNoColor ⟨1, "f", "g", true⟩ [] =
      if "--no-color" ∉ ([] : List String) ∧ true then
        ([] : List String) ++ ["--no-color"]
      else []) :=
  ⟨(C9_no_duplicate_flags ⟨1, "f", "g", true⟩ ["-v", "0"]).1 (by simp),
   (C9_no_duplicate_flags ⟨1, "f", "g", true⟩ ["--stdout", "x"]).2.1 (by simp),
   (C9_no_duplicate_flags ⟨1, "f", "g", true⟩ ["--stderr", "x"]).2.2.1 (by simp),
   (C9_no_duplicate_flags ⟨1, "f", "g", true⟩ ["--no-color"]).2.2.2.1 (by simp),
   (C9_no_duplicate_flags ⟨1, "f", "g", true⟩ []).2.2.2.2⟩

/-- C5 counterexample: a parent with verbosity 2, process-default streams and
color enabled calling `get_task_proxy('other', 'foo')` against a
structured target synthesizes `['foo', '--verbosity', '2']` — the explicit
extra argument comes first and the propagated flags are appended after it,
not the claimed flags-first order `['--verbosity', '2', 'foo']`. -/
theorem C5_counterexample :
    getTaskProxy id ⟨2, "<stdout>", "<stderr>", false⟩
        (.tasksMap [("other", .taskClass "Other")]) "other" ["foo"]
      = .ok ⟨"proxy.execute other", "other", .python, .executeClass, "Other", true,
          some ["foo", "--verbosity", "2"]⟩
    ∧ (["foo", "--verbosity", "2"] : List String) ≠ ["--verbosity", "2", "foo"] := by
  constructor
  · rfl
  · decide

/-- C5 amended: from a parent with parsed verbosity 2, process-default
stdout/stderr targets and color enabled, `get_task_proxy('other')` against
a structured target synthesizes an argv that contains `--verbosity`
followed by `2`, contains no `--stdout`, `--stderr` or `--no-color`
entries, and consists of the explicit extra arguments first with the
propagated common flags appended after them. -/
theorem C5_subtask_argv (cd : String → String) (help : String)
    (args : List String) (h1 : "-v" ∉ args) (h2 : "--verbosity" ∉ args)
    (h3 : "--stdout" ∉ args) (h4 : "--stderr" ∉ args)
    (h5 : "--no-color" ∉ args) :
    getTaskProxy cd ⟨2, "<stdout>", "<stderr>", false⟩
        (.tasksMap [("other", .taskClass help)]) "other" args
      = .ok ⟨"proxy.execute other", "other", .python, .executeClass, help, true,
          some (args ++ ["--verbosity", "2"])⟩ := by
  have hargs : getTaskProxyArgs ⟨2, "<stdout>", "<stderr>", false⟩ args =
      args ++ ["--verbosity", "2"] := by
    simp [getTaskProxyArgs, addVerbosity, addStdout, addStderr, addNoColor,
      h1, h2, h3, h4, h5]
    decide
  simp [getTaskProxy, taskProxyInit, validName,
    (by decide : validTaskName "other" = true), hargs]

/-- C5 witness: the amended synthesis theorem applied at one explicit extra
argument. -/
theorem C5_subtask_argv_witness :
    getTaskProxy id ⟨2, "<stdout>", "<stderr>", false⟩
        (.tasksMap [("other", .taskClass "h")]) "other" ["foo"]
      = .ok ⟨"proxy.execute other", "other", .python, .executeClass, "h", true,
          some (["foo"] ++ ["--verbosity", "2"])⟩ :=
  C5_subtask_argv id "h" ["foo"] (by decide) (by decide) (by decide) (by decide)
    (by decide)

/-- C6: `get_task_proxy` raises `TaskDefinitionError` when the manifest
cannot be found and when the name is not a key of the loaded mapping; and
when the name resolves to a shell (string) or callable variant with
non-empty extra arguments, it raises `TaskError` instead of producing a
proxy. -/
theorem C6_get_task_proxy_errors :
    (∀ (cd : String → String) (kw : ParentKwargs) (msg name : String)
      (args : List String),
      getTaskProxy cd kw (.fileNotFound msg) name args =
        .error (.taskDefinitionError msg))
    ∧ (∀ (cd : String → String) (kw : ParentKwargs)
        (m : List (String × TaskDef)) (name : String) (args : List String),
        m.lookup name = none →
        getTaskProxy cd kw (.tasksMap m) name args =
          .error (.taskDefinitionError ("Unknown task \"" ++ name ++ "\".")))
    ∧ (∀ (cd : String → String) (kw : ParentKwargs)
        (m : List (String × TaskDef)) (name s : String) (args : List String),
        validTaskName name = true → m.lookup name = some (.str s) → args ≠ [] →
        getTaskProxy cd kw (.tasksMap m) name args =
          .error (.taskError "String- and function-based tasks do not accept arguments."))
    ∧ (∀ (cd : String → String) (kw : ParentKwargs)
        (m : List (String × TaskDef)) (name : String) (d : Option String)
        (args : List String),
        validTaskName name = true → m.lookup name = some (.callableVal d) →
        args ≠ [] →
        getTaskProxy cd kw (.tasksMap m) name args =
          .error (.taskError "String- and function-based tasks do not accept arguments.")) := by
  refine ⟨fun cd kw msg name args => rfl,
    fun cd kw m name args hlook => ?_,
    fun cd kw m name s args hname hlook hargs => ?_,
    fun cd kw m name d args hname hlook hargs => ?_⟩
  · simp [getTaskProxy, hlook]
  · simp [getTaskProxy, hlook, taskProxyInit, validName, hname, hargs]
  · simp [getTaskProxy, hlook, taskProxyInit, validName, hname, hargs]

/-- C6 witness: the error-path theorem applied at a missing manifest, an
unknown name, and shell/callable targets given an extra argument. -/
theorem C6_get_task_proxy_errors_witness :
    (getTaskProxy id ⟨1, "f", "g", false⟩ (.fileNotFound "Could not find jog.py.")
        "t" [] = .error (.taskDefinitionError "Could not find jog.py."))
    ∧ (getTaskProxy id ⟨1, "f", "g", false⟩ (.tasksMap []) "t" [] =
        .error (.taskDefinitionError ("Unknown task \"" ++ "t" ++ "\".")))
    ∧ (getTaskProxy id ⟨1, "f", "g", false⟩ (.tasksMap [("t", .str "ls")]) "t" ["x"] =
        .error (.taskError "String- and function-based tasks do not accept arguments."))
    ∧ (getTaskProxy id ⟨1, "f", "g", false⟩
        (.tasksMap [("t", .callableVal none)]) "t" ["x"] =
        .error (.taskError "String- and function-based tasks do not accept arguments.")) :=
  ⟨C6_get_task_proxy_errors.1 id ⟨1, "f", "g", false⟩ "Could not find jog.py." "t" [],
   C6_get_task_proxy_errors.2.1 id ⟨1, "f", "g", false⟩ [] "t" [] rfl,
   C6_get_task_proxy_errors.2.2.1 id ⟨1, "f", "g", false⟩ [("t", .str "ls")] "t" "ls"
     ["x"] (by decide) rfl (by decide),
   C6_get_task_proxy_errors.2.2.2 id ⟨1, "f", "g", false⟩ [("t", .callableVal none)]
     "t" none ["x"] (by decide) rfl (by decide)⟩

/-- C7: the config locator checks the start directory first and walks up one
parent at a time, returning the nearest match (searching from `a/b/c` with
the target in both `a` and `a/b` yields `a/b`); it reports not-found when
the target is absent within the depth bound even though present in a
higher ancestor; and it stops at the filesystem root, where the parent
equals the current directory. -/
theorem C7_find_file_search :
    (find_file (fun p => decide (p = ["a"] ∨ p = ["a", "b"])) ["a", "b", "c"] 16 =
      .ok ["a", "b"])
    ∧ (find_file (fun p => decide (p = ["a"])) ["a", "b", "c", "d"] 2 =
        .error "Could not find the target file."
      ∧ (fun p : List String => decide (p = ["a"])) ["a"] = true)
    ∧ (∀ (fs : List String → Bool) (p : List String) (m : Nat),
        0 < m → fs p = true → find_file fs p m = .ok p)
    ∧ (∀ (fs : List String → Bool) (m : Nat),
        fs [] = false → findFileAux fs m [] = none) := by
  refine ⟨by rfl, ⟨by rfl, by decide⟩, fun fs p m hm hfs => ?_, fun fs m hfs => ?_⟩
  · cases m with
    | zero => omega
    | succ m => simp [find_file, findFileAux, hfs]
  · cases m with
    | zero => rfl
    | succ m => simp [findFileAux, hfs, dirname]

/-- C7 witness: the locator theorem applied at a one-component start
directory with the target present, and at the root with the target
absent. -/
theorem C7_find_file_search_witness :
    find_file (fun _ => true) ["x"] 1 = .ok ["x"]
    ∧ findFileAux (fun _ => false) 5 [] = none :=
  ⟨C7_find_file_search.2.2.1 (fun _ => true) ["x"] 1 (by decide) rfl,
   C7_find_file_search.2.2.2 (fun _ => false) 5 rfl⟩

/-- C10: with `no_color` set, styling is the identity: `Styler.apply`
returns the text unchanged for every parameter combination, and every
named palette role returns the text unchanged. -/
theorem C10_no_color_identity :
    (∀ (text : String) (fg bg : Option Color) (options : List StyleOption)
      (reset : Bool), Styler.apply ⟨true⟩ text fg bg options reset = text)
    ∧ (∀ text, Styler.success ⟨true⟩ text = text)
    ∧ (∀ text, Styler.error ⟨true⟩ text = text)
    ∧ (∀ text, Styler.warning ⟨true⟩ text = text)
    ∧ (∀ text, Styler.info ⟨true⟩ text = text)
    ∧ (∀ text, Styler.debug ⟨true⟩ text = text)
    ∧ (∀ text, Styler.heading ⟨true⟩ text = text)
    ∧ (∀ text, Styler.label ⟨true⟩ text = text) :=
  ⟨fun _ _ _ _ _ => rfl, fun _ => rfl, fun _ => rfl, fun _ => rfl, fun _ => rfl,
   fun _ => rfl, fun _ => rfl, fun _ => rfl⟩

end Jog
